import Mathlib

/-!
Verification of the frame-loop / swapchain-lifecycle core of
`vulkan-examples-rs` (files `src/app/fixed_stuff.rs`,
`src/vulkan_objects/swapchain.rs`, `src/app/window_app.rs`,
`src/vulkan_objects/buffer.rs`, and the example driver
`examples/texture_array/main.rs`).

The external Vulkan driver is modelled by an oracle record holding the
result of each FFI call the code makes; the code itself is embedded as
interpreters that consume the oracle, thread the CPU-side state, and emit a
trace of the calls they issue, in program order.  `ash` (the Rust binding)
maps every failing `vk::Result` to the `Err` branch of `VkResult`, keeping
`SUBOPTIMAL_KHR` as `Ok` with a `bool` flag; the embedding mirrors that.
-/

namespace VkExamples

/-- Error branch of an `ash::prelude::VkResult`.  `outOfDateKhr` is
`vk::Result::ERROR_OUT_OF_DATE_KHR`; `other c` stands for any other failing
result code (the raw `i32` value). -/
inductive VkErr where
  | outOfDateKhr : VkErr
  | other : Int → VkErr
deriving DecidableEq, Repr

/-- Error enum of `src/error.rs` (`RenderError`).  Payloads of variants the
frame loop never inspects are elided to the variant name. -/
inductive RenderError where
  | vkResult : VkErr → RenderError
  | windowCreateError : RenderError
  | ioError : RenderError
  | imageError : RenderError
  | objLoadError : RenderError
  | physicalDeviceNotSupported : String → RenderError
  | formatNotSupported : String → RenderError
  | memoryTypeNotSupported : String → RenderError
  | layoutTransitionNotSupported : String → RenderError
deriving DecidableEq, Repr

/-- Value of `FixedVulkanStuff::MAX_FRAMES_IN_FLIGHT`. -/
def MAX_FRAMES_IN_FLIGHT : Nat := 2

/-- Value of `u32::MAX`. -/
def U32_MAX : Nat := 4294967295

/-- Value of `u64::MAX`, the unbounded-timeout argument of
`wait_for_fences` and `acquire_next_image`. -/
def U64_MAX : Nat := 18446744073709551615

/-- One observable step of the frame loop: each constructor marks entry into
the corresponding driver call (or, for `recreateCall`, into
`FixedVulkanStuff::recreate`), in program order.  Bulk destroy loops are a
single event. -/
inductive Event where
  | recreateCall : Event
  | deviceWaitIdle : Event
  | refitSurface : Event
  | destroyImageViews : Event
  | destroySwapchain : Event
  | createSwapchainImagesAndViews : Event
  | createDepthStencil : Event
  | destroyDepthStencil : Event
  | destroyFramebuffers : Event
  | createFramebuffers : Event
  | waitForFence : Nat → Nat → Event
  | acquireNextImage : Nat → Event
  | resetFence : Nat → Event
  | queueSubmit : Nat → Event
  | queuePresent : Nat → Nat → Event
deriving DecidableEq, Repr

/-- Destruction of a swapchain-dependent resource (swapchain, image views,
depth-stencil image, framebuffers). -/
def swapchainDestroyEvent : Event → Bool
  | .destroyImageViews => true
  | .destroySwapchain => true
  | .destroyDepthStencil => true
  | .destroyFramebuffers => true
  | _ => false

/-- Number of occurrences of an event in a trace. -/
def countEvent (e : Event) : List Event → Nat
  | [] => 0
  | x :: xs => (if x = e then 1 else 0) + countEvent e xs

/-- Surface capability fields read by `create_swapchain`
(`src/vulkan_objects/swapchain.rs`); both are `u32` in `ash`. -/
structure SurfaceCapabilities where
  min_image_count : Nat
  max_image_count : Nat
deriving DecidableEq, Repr

/-- Image count requested by `create_swapchain`:
`capabilities.max_image_count.min(capabilities.min_image_count + 1)`.
The `+ 1` is `u32` machine addition, hence the wrap modulo `2 ^ 32`. -/
def requested_min_image_count (caps : SurfaceCapabilities) : Nat :=
  Nat.min caps.max_image_count ((caps.min_image_count + 1) % 4294967296)

/-- Counter fields of `FrameCounter` (`src/app/window_app.rs`) that feed the
frame loop; the wall-clock fps fields are external and not modelled.
`frame_count` is a `u64`, `double_buffer_frame` a `usize`. -/
structure FrameCounter where
  double_buffer_frame : Nat
  frame_count : Nat
deriving DecidableEq, Repr

/-- Counter initialisation in `FrameCounter::new`. -/
def FrameCounter.new : FrameCounter :=
  { double_buffer_frame := 0, frame_count := 0 }

/-- Counter part of `FrameCounter::update`: `frame_count += 1` (`u64`
machine addition) and
`double_buffer_frame = (double_buffer_frame + 1) % MAX_FRAMES_IN_FLIGHT`. -/
def FrameCounter.update (c : FrameCounter) : FrameCounter :=
  { frame_count := (c.frame_count + 1) % (U64_MAX + 1),
    double_buffer_frame := (c.double_buffer_frame + 1) % MAX_FRAMES_IN_FLIGHT }

/-- CPU-side state of `SwapChainBatch` (`src/vulkan_objects/swapchain.rs`):
the presentable images and the derived image views.  Handles are abstracted
to naturals; the loader and device references carry no modelled state. -/
structure SwapChainBatch where
  images : List Nat
  image_views : List Nat
deriving DecidableEq, Repr

/-- CPU-side state of `FixedVulkanStuff` (`src/app/fixed_stuff.rs`) that the
recreation path rewrites: the swapchain batch and the framebuffers.  The
command pool, command buffers, sync primitives, render pass, surface and
device are created once in `new` and never touched by `recreate`. -/
structure FixedVulkanStuff where
  swapchain_batch : SwapChainBatch
  swapchain_framebuffers : List Nat
deriving DecidableEq, Repr

/-- Results of the external driver calls issued while (re)building the
swapchain-dependent resource set: `device_wait_idle`,
`Surface::refit_surface_attribute`, `create_swapchain`,
`get_swapchain_images`, per-image `create_image_view`, `DepthStencil::new`,
and per-view `create_framebuffer`. -/
structure RecreateOracle where
  deviceWaitIdle : Except VkErr Unit
  refitSurface : Except RenderError Unit
  createSwapchain : Except VkErr Unit
  getSwapchainImages : Except VkErr (List Nat)
  createImageView : Nat → Except VkErr Nat
  newDepthStencil : Except RenderError Unit
  createFramebuffer : Nat → Except VkErr Nat

/-- Sequencing of a fallible per-element call over a list, stopping at the
first failure and keeping the successes in order — the shape of the
`?`-propagating loops in `create_swapchain_image_and_views` and of the
`collect::<VkResult<Vec<_>>>` in `create_swapchain_frame_buffer`. -/
def traverseExcept {ε α : Type} (f : Nat → Except ε α) : List Nat → Except ε (List α)
  | [] => .ok []
  | x :: xs =>
    match f x with
    | .error e => .error e
    | .ok y =>
      match traverseExcept f xs with
      | .error e => .error e
      | .ok ys => .ok (y :: ys)

/-- Function `create_swapchain_image_and_views`
(`src/vulkan_objects/swapchain.rs`): create the swapchain, query its
images, then build one image view per image, propagating the first
failure. -/
def create_swapchain_image_and_views (o : RecreateOracle) :
    Except VkErr (List Nat × List Nat) :=
  match o.createSwapchain with
  | .error e => .error e
  | .ok _ =>
    match o.getSwapchainImages with
    | .error e => .error e
    | .ok images =>
      match traverseExcept o.createImageView images with
      | .error e => .error e
      | .ok image_views => .ok (images, image_views)

/-- Constructor `SwapChainBatch::new`: the batch state is exactly the output
of `create_swapchain_image_and_views` (the `Rc` identity assertions relate
unmodelled handles). -/
def SwapChainBatch.new (o : RecreateOracle) : Except VkErr SwapChainBatch :=
  match create_swapchain_image_and_views o with
  | .error e => .error e
  | .ok p => .ok ⟨p.1, p.2⟩

/-- Method `SwapChainBatch::recreate`: `dispose_gpu_resources` destroys the
old image views and the old swapchain, then the chain is rebuilt by
`create_swapchain_image_and_views`.  The second component is the trace of
driver calls issued. -/
def SwapChainBatch.recreate (_b : SwapChainBatch) (o : RecreateOracle) :
    Except VkErr SwapChainBatch × List Event :=
  let t := [Event.destroyImageViews, Event.destroySwapchain,
    Event.createSwapchainImagesAndViews]
  match create_swapchain_image_and_views o with
  | .error e => (.error e, t)
  | .ok p => (.ok ⟨p.1, p.2⟩, t)

/-- Function `create_swapchain_frame_buffer` (`src/app/fixed_stuff.rs`):
one framebuffer per swapchain image view, collected in order with the first
failure propagated. -/
def create_swapchain_frame_buffer (o : RecreateOracle)
    (swapchain_batch : SwapChainBatch) : Except VkErr (List Nat) :=
  traverseExcept o.createFramebuffer swapchain_batch.image_views

/-- Method `FixedVulkanStuff::recreate`: wait for device idle, re-query the
surface attributes, recreate the swapchain batch, build a new depth-stencil
image (the old one is dropped when the field is overwritten), destroy the
old framebuffers and build new ones.  The trace records each driver call in
program order; `recreateCall` marks entry into this routine. -/
def FixedVulkanStuff.recreate (s : FixedVulkanStuff) (o : RecreateOracle) :
    Except RenderError FixedVulkanStuff × List Event :=
  let t0 := [Event.recreateCall, Event.deviceWaitIdle]
  match o.deviceWaitIdle with
  | .error e => (.error (.vkResult e), t0)
  | .ok _ =>
    let t1 := t0 ++ [Event.refitSurface]
    match o.refitSurface with
    | .error e => (.error e, t1)
    | .ok _ =>
      match s.swapchain_batch.recreate o with
      | (.error e, tb) => (.error (.vkResult e), t1 ++ tb)
      | (.ok batch, tb) =>
        let t2 := t1 ++ tb ++ [Event.createDepthStencil]
        match o.newDepthStencil with
        | .error e => (.error e, t2)
        | .ok _ =>
          let t3 := t2 ++ [Event.destroyDepthStencil,
            Event.destroyFramebuffers, Event.createFramebuffers]
          match create_swapchain_frame_buffer o batch with
          | .error e => (.error (.vkResult e), t3)
          | .ok fbs => (.ok ⟨batch, fbs⟩, t3)

/-- Swapchain-dependent part of `FixedVulkanStuff::new`: build the batch,
the depth-stencil image and one framebuffer per image view.  Surface,
device, command pool, command buffers and sync primitives are created too
but carry no modelled state. -/
def FixedVulkanStuff.new (o : RecreateOracle) :
    Except RenderError FixedVulkanStuff :=
  match SwapChainBatch.new o with
  | .error e => .error (.vkResult e)
  | .ok batch =>
    match o.newDepthStencil with
    | .error e => .error e
    | .ok _ =>
      match create_swapchain_frame_buffer o batch with
      | .error e => .error (.vkResult e)
      | .ok fbs => .ok ⟨batch, fbs⟩

/-- Results of the per-frame driver calls: `wait_for_fences`,
`acquire_next_image` (image index and suboptimal flag on success),
`reset_fences`, `queue_submit`, `queue_present` (suboptimal flag on
success), plus the oracle for a recreation, should one be triggered. -/
structure FrameOracle where
  waitFence : Except VkErr Unit
  acquire : Except VkErr (Nat × Bool)
  resetFence : Except VkErr Unit
  submit : Except VkErr Unit
  present : Except VkErr Bool
  recreateO : RecreateOracle

/-- Method `FixedVulkanStuff::frame_get_image_index_to_draw`: wait on the
slot fence (unbounded timeout), acquire the next image; on
`ERROR_OUT_OF_DATE_KHR` recreate and return `Ok((u32::MAX, true))`, on any
other error propagate it, on success reset the fence and return the index
with a `false` flag (the suboptimal flag of the acquire is discarded).
Returns the result, the updated state, and the trace. -/
def FixedVulkanStuff.frame_get_image_index_to_draw (s : FixedVulkanStuff)
    (frame_index : Nat) (o : FrameOracle) :
    Except RenderError (Nat × Bool) × FixedVulkanStuff × List Event :=
  let t0 := [Event.waitForFence frame_index U64_MAX]
  match o.waitFence with
  | .error e => (.error (.vkResult e), s, t0)
  | .ok _ =>
    let t1 := t0 ++ [Event.acquireNextImage frame_index]
    match o.acquire with
    | .error .outOfDateKhr =>
      match s.recreate o.recreateO with
      | (.error e, tr) => (.error e, s, t1 ++ tr)
      | (.ok s2, tr) => (.ok (U32_MAX, true), s2, t1 ++ tr)
    | .error e => (.error (.vkResult e), s, t1)
    | .ok r =>
      let t2 := t1 ++ [Event.resetFence frame_index]
      match o.resetFence with
      | .error e => (.error (.vkResult e), s, t2)
      | .ok _ => (.ok (r.1, false), s, t2)

/-- Match on the present result computing `need_recreate` in
`frame_queue_submit_and_present`:
`Err(ERROR_OUT_OF_DATE_KHR) | Ok(true) => true, Ok(_) => false,
Err(e) => return Err(e)`. -/
def present_need_recreate : Except VkErr Bool → Except VkErr Bool
  | .error .outOfDateKhr => .ok true
  | .ok true => .ok true
  | .ok false => .ok false
  | .error e => .error e

/-- Method `FixedVulkanStuff::frame_queue_submit_and_present`: submit the
command buffer, present; out-of-date or suboptimal present results set
`need_recreate`, any other present error propagates; recreate when
`need_recreate || window_resized`; on every non-error path return
`Ok(false)`. -/
def FixedVulkanStuff.frame_queue_submit_and_present (s : FixedVulkanStuff)
    (frame_index : Nat) (image_index : Nat) (window_resized : Bool)
    (o : FrameOracle) :
    Except RenderError Bool × FixedVulkanStuff × List Event :=
  let t0 := [Event.queueSubmit frame_index]
  match o.submit with
  | .error e => (.error (.vkResult e), s, t0)
  | .ok _ =>
    let t1 := t0 ++ [Event.queuePresent frame_index image_index]
    match present_need_recreate o.present with
    | .error e => (.error (.vkResult e), s, t1)
    | .ok need_recreate =>
      if need_recreate || window_resized then
        match s.recreate o.recreateO with
        | (.error e, tr) => (.error e, s, t1 ++ tr)
        | (.ok s2, tr) => (.ok false, s2, t1 ++ tr)
      else (.ok false, s, t1)

/-- Loop-relevant state of the `TextureArrayExample` app
(`examples/texture_array/main.rs`): the frame-slot cursor, the resize flag,
and the owned `FixedVulkanStuff`. -/
structure TextureArrayExample where
  current_frame : Nat
  window_resized : Bool
  fixed_vulkan_stuff : FixedVulkanStuff
deriving DecidableEq, Repr

/-- Method `TextureArrayExample::draw_frame`: acquire (unwrap — a `none`
models the panic); on the abandoned-frame flag return with counters
untouched; otherwise record and submit/present (uniform-buffer update and
command recording issue no modelled driver calls), store the returned flag
into `window_resized`, and advance `current_frame` modulo
`MAX_FRAMES_IN_FLIGHT`. -/
def TextureArrayExample.draw_frame (s : TextureArrayExample)
    (o : FrameOracle) : Option (TextureArrayExample × List Event) :=
  match s.fixed_vulkan_stuff.frame_get_image_index_to_draw s.current_frame o with
  | (.error _, _, _) => none
  | (.ok r, fvs1, t1) =>
    if r.2 then some ({ s with fixed_vulkan_stuff := fvs1 }, t1)
    else
      match fvs1.frame_queue_submit_and_present s.current_frame r.1
          s.window_resized o with
      | (.error _, _, _) => none
      | (.ok resized, fvs2, t2) =>
        some ({ current_frame := (s.current_frame + 1) % MAX_FRAMES_IN_FLIGHT,
                window_resized := resized,
                fixed_vulkan_stuff := fvs2 }, t1 ++ t2)

/-- Outcome of a `debug_assert!`: the check is compiled in only when the
build has debug assertions enabled, so it fires exactly when the build is a
debug build and the condition fails. -/
def debug_assert_fires (debug_assertions : Bool) (cond : Bool) : Bool :=
  debug_assertions && !cond

/-- Outcome of a plain `assert!`: the check is unconditional, the build
configuration is ignored. -/
def assert_fires (_debug_assertions : Bool) (cond : Bool) : Bool :=
  !cond

/-- Guard shared by every `frame_*` method of `FixedVulkanStuff`:
`debug_assert!(frame_index < Self::MAX_FRAMES_IN_FLIGHT)`. -/
def frame_op_index_guard (debug_assertions : Bool) (frame_index : Nat) : Bool :=
  debug_assert_fires debug_assertions (decide (frame_index < MAX_FRAMES_IN_FLIGHT))

/-- Mapping-relevant state of `Buffer<T>`
(`src/vulkan_objects/buffer.rs`): whether `mapped_ptr` is `Some`, and the
byte size. -/
structure Buffer where
  mapped : Bool
  size_in_bytes : Nat
deriving DecidableEq, Repr

/-- Guard prelude of `Buffer::map_memory`: `assert!(!self.mapped())` and
`assert!(offset + size_in_bytes <= self.size_in_bytes)` — both plain
`assert!`, firing regardless of the build configuration. -/
def Buffer.map_memory_guard (_debug_assertions : Bool) (b : Buffer)
    (offset size_in_bytes : Nat) : Bool :=
  b.mapped || decide (b.size_in_bytes < offset + size_in_bytes)

/-- Body of `Buffer::map_memory` past the asserts: call the driver, record
the mapping on success; the only error ever returned is the driver's. -/
def Buffer.map_memory (b : Buffer) (driver_map : Except VkErr Unit) :
    Except VkErr Buffer :=
  match driver_map with
  | .error e => .error e
  | .ok _ => .ok { b with mapped := true }

/-- Guard prelude of `Buffer::unmap_memory`: `assert!(self.mapped())` — a
plain `assert!`, firing regardless of the build configuration. -/
def Buffer.unmap_memory_guard (_debug_assertions : Bool) (b : Buffer) : Bool :=
  !b.mapped

/-- Property of a trace: wherever a swapchain-dependent resource is
destroyed, a `device_wait_idle` call has already been issued earlier in the
same trace. -/
def waitsBeforeDestroys (t : List Event) : Prop :=
  ∀ pre e post, t = pre ++ e :: post → swapchainDestroyEvent e = true →
    Event.deviceWaitIdle ∈ pre

/-- Fixture: a driver that answers every rebuild call successfully, with a
three-image swapchain. -/
def okRecreateOracle : RecreateOracle :=
  ⟨.ok (), .ok (), .ok (), .ok [10, 11, 12], fun i => .ok i, .ok (),
    fun v => .ok v⟩

/-- Fixture: a `FixedVulkanStuff` state with three images, views and
framebuffers. -/
def fvs0 : FixedVulkanStuff := ⟨⟨[10, 11, 12], [10, 11, 12]⟩, [10, 11, 12]⟩

/-- Fixture: the acquire call reports `ERROR_OUT_OF_DATE_KHR`; everything
else succeeds. -/
def oracleOutOfDateAcquire : FrameOracle :=
  ⟨.ok (), .error .outOfDateKhr, .ok (), .ok (), .ok true, okRecreateOracle⟩

/-- Fixture: the acquire call succeeds with image index `7` and the
suboptimal flag set; everything else succeeds. -/
def oracleSuboptimalAcquire : FrameOracle :=
  ⟨.ok (), .ok (7, true), .ok (), .ok (), .ok false, okRecreateOracle⟩

/-- Fixture: every per-frame call succeeds cleanly. -/
def oracleOk : FrameOracle :=
  ⟨.ok (), .ok (1, false), .ok (), .ok (), .ok false, okRecreateOracle⟩

/-- Fixture: the present call reports `ERROR_OUT_OF_DATE_KHR`; everything
else succeeds. -/
def oraclePresentOutOfDate : FrameOracle :=
  ⟨.ok (), .ok (1, false), .ok (), .ok (), .error .outOfDateKhr,
    okRecreateOracle⟩

/-- Fixture: the acquire call fails with a code other than out-of-date
(`ERROR_DEVICE_LOST = -4`). -/
def oracleDeviceLostAcquire : FrameOracle :=
  ⟨.ok (), .error (.other (-4)), .ok (), .ok (), .ok false, okRecreateOracle⟩

/-- Fixture: app state of the texture-array example at slot `0`, resize flag
down. -/
def texApp0 : TextureArrayExample := ⟨0, false, fvs0⟩

/-- Fixture: a swapchain batch with three images and three views. -/
def batch0 : SwapChainBatch := ⟨[10, 11, 12], [10, 11, 12]⟩

end VkExamples

namespace VkExamples

theorem traverseExcept_length {ε α : Type} (f : Nat → Except ε α) :
    ∀ (xs : List Nat) (ys : List α),
      traverseExcept f xs = .ok ys → ys.length = xs.length := by
  intro xs
  induction xs with
  | nil =>
    intro ys h
    simp only [traverseExcept, Except.ok.injEq] at h
    rw [← h]
    rfl
  | cons x xs ih =>
    intro ys h
    simp only [traverseExcept] at h
    cases hf : f x with
    | error e => rw [hf] at h; exact absurd h (by simp)
    | ok y =>
      rw [hf] at h
      cases ht : traverseExcept f xs with
      | error e => rw [ht] at h; exact absurd h (by simp)
      | ok ys2 =>
        rw [ht] at h
        simp only [Except.ok.injEq] at h
        rw [← h]
        simp [ih ys2 ht]

theorem swapchain_recreate_trace (b : SwapChainBatch) (o : RecreateOracle) :
    (b.recreate o).2 = [Event.destroyImageViews, Event.destroySwapchain,
      Event.createSwapchainImagesAndViews] := by
  unfold SwapChainBatch.recreate
  cases create_swapchain_image_and_views o <;> rfl

theorem recreate_trace_shape (s : FixedVulkanStuff) (o : RecreateOracle) :
    (s.recreate o).2 = [Event.recreateCall, Event.deviceWaitIdle] ∨
    (s.recreate o).2 = [Event.recreateCall, Event.deviceWaitIdle,
      Event.refitSurface] ∨
    (s.recreate o).2 = [Event.recreateCall, Event.deviceWaitIdle,
      Event.refitSurface, Event.destroyImageViews, Event.destroySwapchain,
      Event.createSwapchainImagesAndViews] ∨
    (s.recreate o).2 = [Event.recreateCall, Event.deviceWaitIdle,
      Event.refitSurface, Event.destroyImageViews, Event.destroySwapchain,
      Event.createSwapchainImagesAndViews, Event.createDepthStencil] ∨
    (s.recreate o).2 = [Event.recreateCall, Event.deviceWaitIdle,
      Event.refitSurface, Event.destroyImageViews, Event.destroySwapchain,
      Event.createSwapchainImagesAndViews, Event.createDepthStencil,
      Event.destroyDepthStencil, Event.destroyFramebuffers,
      Event.createFramebuffers] := by
  cases hdw : o.deviceWaitIdle with
  | error e => left; simp [FixedVulkanStuff.recreate, hdw]
  | ok u =>
    cases hrf : o.refitSurface with
    | error e => right; left; simp [FixedVulkanStuff.recreate, hdw, hrf]
    | ok u2 =>
      cases hc : create_swapchain_image_and_views o with
      | error e =>
        right; right; left
        simp [FixedVulkanStuff.recreate, SwapChainBatch.recreate, hdw, hrf, hc]
      | ok p =>
        rcases p with ⟨imgs, views⟩
        cases hds : o.newDepthStencil with
        | error e =>
          right; right; right; left
          simp [FixedVulkanStuff.recreate, SwapChainBatch.recreate, hdw, hrf,
            hc, hds]
        | ok u3 =>
          cases hfb : create_swapchain_frame_buffer o ⟨imgs, views⟩ with
          | error e =>
            right; right; right; right
            simp [FixedVulkanStuff.recreate, SwapChainBatch.recreate, hdw,
              hrf, hc, hds, hfb]
          | ok fbs =>
            right; right; right; right
            simp [FixedVulkanStuff.recreate, SwapChainBatch.recreate, hdw,
              hrf, hc, hds, hfb]

theorem recreate_trace_cons (s : FixedVulkanStuff) (o : RecreateOracle) :
    ∃ rest, (s.recreate o).2 =
      Event.recreateCall :: Event.deviceWaitIdle :: rest := by
  rcases recreate_trace_shape s o with h | h | h | h | h <;> exact ⟨_, h⟩

theorem waitsBeforeDestroys_cons (a : Event) (t : List Event)
    (ha : swapchainDestroyEvent a = false) (ht : waitsBeforeDestroys t) :
    waitsBeforeDestroys (a :: t) := by
  intro pre e post h hd
  cases pre with
  | nil =>
    simp only [List.nil_append, List.cons.injEq] at h
    rw [← h.1, ha] at hd
    exact absurd hd (by simp)
  | cons b pre2 =>
    simp only [List.cons_append, List.cons.injEq] at h
    exact List.mem_cons_of_mem b (ht pre2 e post h.2 hd)

theorem waitsBeforeDestroys_waitIdle_cons (t : List Event) :
    waitsBeforeDestroys (Event.deviceWaitIdle :: t) := by
  intro pre e post h hd
  cases pre with
  | nil =>
    simp only [List.nil_append, List.cons.injEq] at h
    rw [← h.1] at hd
    exact absurd hd (by simp [swapchainDestroyEvent])
  | cons b pre2 =>
    simp only [List.cons_append, List.cons.injEq] at h
    rw [← h.1]
    exact List.mem_cons_self _ _

theorem recreate_waitsBeforeDestroys (s : FixedVulkanStuff)
    (o : RecreateOracle) : waitsBeforeDestroys (s.recreate o).2 := by
  obtain ⟨rest, h⟩ := recreate_trace_cons s o
  rw [h]
  exact waitsBeforeDestroys_cons _ _ rfl (waitsBeforeDestroys_waitIdle_cons rest)

theorem recreate_trace_no_frame_events (s : FixedVulkanStuff)
    (o : RecreateOracle) :
    (∀ j, Event.resetFence j ∉ (s.recreate o).2) ∧
    (∀ j, Event.queueSubmit j ∉ (s.recreate o).2) ∧
    (∀ j k, Event.queuePresent j k ∉ (s.recreate o).2) ∧
    (∀ j k, Event.waitForFence j k ∉ (s.recreate o).2) ∧
    (∀ j, Event.acquireNextImage j ∉ (s.recreate o).2) := by
  rcases recreate_trace_shape s o with h | h | h | h | h <;>
    rw [h] <;> refine ⟨?_, ?_, ?_, ?_, ?_⟩ <;> intros <;> simp

theorem recreate_call_count_one (s : FixedVulkanStuff)
    (o : RecreateOracle) :
    countEvent Event.recreateCall (s.recreate o).2 = 1 := by
  rcases recreate_trace_shape s o with h | h | h | h | h <;> rw [h] <;> decide

theorem countEvent_append (e : Event) (a b : List Event) :
    countEvent e (a ++ b) = countEvent e a + countEvent e b := by
  induction a with
  | nil => simp [countEvent]
  | cons x xs ih =>
    simp only [List.cons_append, countEvent, List.append_eq]
    rw [ih]
    omega

theorem recreate_trace_mem_call (s : FixedVulkanStuff) (o : RecreateOracle) :
    Event.recreateCall ∈ (s.recreate o).2 := by
  obtain ⟨rest, h⟩ := recreate_trace_cons s o
  rw [h]
  exact List.mem_cons_self _ _

theorem countEvent_eq_zero (e : Event) (t : List Event) (h : e ∉ t) :
    countEvent e t = 0 := by
  induction t with
  | nil => rfl
  | cons x xs ih =>
    simp only [List.mem_cons, not_or] at h
    simp only [countEvent, ih h.2]
    rw [if_neg (fun hx => h.1 hx.symm)]

theorem frame_get_trace_ood (s : FixedVulkanStuff) (o : FrameOracle)
    (fi : Nat) (hw : o.waitFence = .ok ())
    (ha : o.acquire = .error .outOfDateKhr) :
    (s.frame_get_image_index_to_draw fi o).2.2 =
      Event.waitForFence fi U64_MAX :: Event.acquireNextImage fi ::
        (s.recreate o.recreateO).2 := by
  rcases hr : s.recreate o.recreateO with ⟨res, tr⟩
  cases res <;>
    simp [FixedVulkanStuff.frame_get_image_index_to_draw, hw, ha, hr]

theorem frame_submit_trace_recreate (s : FixedVulkanStuff) (o : FrameOracle)
    (fi ii : Nat) (wr : Bool) (b : Bool) (hs : o.submit = .ok ())
    (hp : present_need_recreate o.present = .ok b) (hbw : (b || wr) = true) :
    (s.frame_queue_submit_and_present fi ii wr o).2.2 =
      Event.queueSubmit fi :: Event.queuePresent fi ii ::
        (s.recreate o.recreateO).2 := by
  rcases hr : s.recreate o.recreateO with ⟨res, tr⟩
  cases res <;>
    simp [FixedVulkanStuff.frame_queue_submit_and_present, hs, hp, hbw, hr]

theorem frame_get_trace_shape (s : FixedVulkanStuff) (o : FrameOracle)
    (fi : Nat) :
    (s.frame_get_image_index_to_draw fi o).2.2 =
      [Event.waitForFence fi U64_MAX] ∨
    ((s.frame_get_image_index_to_draw fi o).2.2 =
      [Event.waitForFence fi U64_MAX, Event.acquireNextImage fi] ∧
      ∃ c, o.acquire = .error (.other c)) ∨
    ((s.frame_get_image_index_to_draw fi o).2.2 =
      Event.waitForFence fi U64_MAX :: Event.acquireNextImage fi ::
        (s.recreate o.recreateO).2 ∧
      o.acquire = .error .outOfDateKhr) ∨
    ((s.frame_get_image_index_to_draw fi o).2.2 =
      [Event.waitForFence fi U64_MAX, Event.acquireNextImage fi,
       Event.resetFence fi] ∧ ∃ r, o.acquire = .ok r) := by
  cases hw : o.waitFence with
  | error e =>
    left
    simp [FixedVulkanStuff.frame_get_image_index_to_draw, hw]
  | ok u =>
    cases ha : o.acquire with
    | error e =>
      cases e with
      | outOfDateKhr =>
        right; right; left
        exact ⟨frame_get_trace_ood s o fi hw ha, rfl⟩
      | other c =>
        right; left
        refine ⟨?_, ⟨c, rfl⟩⟩
        simp [FixedVulkanStuff.frame_get_image_index_to_draw, hw, ha]
    | ok r =>
      right; right; right
      refine ⟨?_, ⟨r, rfl⟩⟩
      cases hrf : o.resetFence <;>
        simp [FixedVulkanStuff.frame_get_image_index_to_draw, hw, ha, hrf]

theorem frame_submit_trace_shape (s : FixedVulkanStuff) (o : FrameOracle)
    (fi ii : Nat) (wr : Bool) :
    (s.frame_queue_submit_and_present fi ii wr o).2.2 =
      [Event.queueSubmit fi] ∨
    (s.frame_queue_submit_and_present fi ii wr o).2.2 =
      [Event.queueSubmit fi, Event.queuePresent fi ii] ∨
    (s.frame_queue_submit_and_present fi ii wr o).2.2 =
      Event.queueSubmit fi :: Event.queuePresent fi ii ::
        (s.recreate o.recreateO).2 := by
  cases hs : o.submit with
  | error e =>
    left
    simp [FixedVulkanStuff.frame_queue_submit_and_present, hs]
  | ok u =>
    cases hp : present_need_recreate o.present with
    | error e =>
      right; left
      simp [FixedVulkanStuff.frame_queue_submit_and_present, hs, hp]
    | ok b =>
      cases hbw : (b || wr) with
      | false =>
        right; left
        simp [FixedVulkanStuff.frame_queue_submit_and_present, hs, hp, hbw]
      | true =>
        right; right
        exact frame_submit_trace_recreate s o fi ii wr b hs hp hbw

theorem create_views_length (o : RecreateOracle) (imgs views : List Nat)
    (h : create_swapchain_image_and_views o = .ok (imgs, views)) :
    views.length = imgs.length := by
  unfold create_swapchain_image_and_views at h
  cases hcs : o.createSwapchain with
  | error e => simp [hcs] at h
  | ok u =>
    cases hgi : o.getSwapchainImages with
    | error e => simp [hcs, hgi] at h
    | ok images =>
      cases ht : traverseExcept o.createImageView images with
      | error e => simp [hcs, hgi, ht] at h
      | ok vs =>
        simp only [hcs, hgi, ht, Except.ok.injEq, Prod.mk.injEq] at h
        rw [← h.1, ← h.2]
        exact traverseExcept_length o.createImageView images vs ht

theorem recreate_ok_decomp (s : FixedVulkanStuff) (o : RecreateOracle)
    (s2 : FixedVulkanStuff) (t : List Event)
    (h : s.recreate o = (.ok s2, t)) :
    ∃ imgs views fbs,
      create_swapchain_image_and_views o = .ok (imgs, views) ∧
      traverseExcept o.createFramebuffer views = .ok fbs ∧
      s2 = ⟨⟨imgs, views⟩, fbs⟩ := by
  cases hdw : o.deviceWaitIdle with
  | error e => simp [FixedVulkanStuff.recreate, hdw] at h
  | ok u =>
    cases hrf : o.refitSurface with
    | error e => simp [FixedVulkanStuff.recreate, hdw, hrf] at h
    | ok u2 =>
      cases hc : create_swapchain_image_and_views o with
      | error e =>
        simp [FixedVulkanStuff.recreate, SwapChainBatch.recreate, hdw, hrf,
          hc] at h
      | ok p =>
        rcases p with ⟨imgs, views⟩
        cases hds : o.newDepthStencil with
        | error e =>
          simp [FixedVulkanStuff.recreate, SwapChainBatch.recreate, hdw, hrf,
            hc, hds] at h
        | ok u3 =>
          cases hfb : traverseExcept o.createFramebuffer views with
          | error e =>
            simp [FixedVulkanStuff.recreate, SwapChainBatch.recreate,
              create_swapchain_frame_buffer, hdw, hrf, hc, hds, hfb] at h
          | ok fbs =>
            simp only [FixedVulkanStuff.recreate, SwapChainBatch.recreate,
              create_swapchain_frame_buffer, hdw, hrf, hc, hds, hfb,
              Prod.mk.injEq, Except.ok.injEq] at h
            refine ⟨imgs, views, fbs, ?_, ?_, ?_⟩
            · rfl
            · exact hfb
            · exact h.1.symm

theorem new_ok_decomp (o : RecreateOracle) (s2 : FixedVulkanStuff)
    (h : FixedVulkanStuff.new o = .ok s2) :
    ∃ imgs views fbs,
      create_swapchain_image_and_views o = .ok (imgs, views) ∧
      traverseExcept o.createFramebuffer views = .ok fbs ∧
      s2 = ⟨⟨imgs, views⟩, fbs⟩ := by
  unfold FixedVulkanStuff.new at h
  cases hc : create_swapchain_image_and_views o with
  | error e => simp [SwapChainBatch.new, hc] at h
  | ok p =>
    rcases p with ⟨imgs, views⟩
    cases hds : o.newDepthStencil with
    | error e => simp [SwapChainBatch.new, hc, hds] at h
    | ok u =>
      cases hfb : traverseExcept o.createFramebuffer views with
      | error e =>
        simp [SwapChainBatch.new, create_swapchain_frame_buffer, hc, hds,
          hfb] at h
      | ok fbs =>
        simp only [SwapChainBatch.new, create_swapchain_frame_buffer, hc,
          hds, hfb, Except.ok.injEq] at h
        refine ⟨imgs, views, fbs, ?_, ?_, ?_⟩
        · rfl
        · exact hfb
        · exact h.symm

theorem submit_present_ok_false (s : FixedVulkanStuff) (o : FrameOracle)
    (fi ii : Nat) (wr : Bool) (b2 : Bool)
    (h : (s.frame_queue_submit_and_present fi ii wr o).1 = .ok b2) :
    b2 = false := by
  rw [FixedVulkanStuff.frame_queue_submit_and_present] at h
  cases hs : o.submit with
  | error e => simp [hs] at h
  | ok u =>
    cases hp : present_need_recreate o.present with
    | error e => simp [hs, hp] at h
    | ok nr =>
      cases hbw : (nr || wr) with
      | false =>
        simp only [hs, hp, hbw, Bool.false_eq_true, if_false,
          Except.ok.injEq] at h
        exact h.symm
      | true =>
        rcases hr : s.recreate o.recreateO with ⟨res, tr⟩
        cases res with
        | error e => simp [hs, hp, hbw, hr] at h
        | ok s3 =>
          simp only [hs, hp, hbw, if_true, hr, Except.ok.injEq] at h
          exact h.symm

theorem frame_get_result_ok (s : FixedVulkanStuff) (o : FrameOracle)
    (fi : Nat) (r : Nat × Bool) (hw : o.waitFence = .ok ())
    (hrf : o.resetFence = .ok ()) (ha : o.acquire = .ok r) :
    (s.frame_get_image_index_to_draw fi o).1 = .ok (r.1, false) := by
  simp [FixedVulkanStuff.frame_get_image_index_to_draw, hw, ha, hrf]

theorem frame_get_result_ood (s : FixedVulkanStuff) (o : FrameOracle)
    (fi : Nat) (s2 : FixedVulkanStuff) (hw : o.waitFence = .ok ())
    (ha : o.acquire = .error .outOfDateKhr)
    (hrec : (s.recreate o.recreateO).1 = .ok s2) :
    (s.frame_get_image_index_to_draw fi o).1 = .ok (U32_MAX, true) := by
  rcases hr : s.recreate o.recreateO with ⟨res, tr⟩
  rw [hr] at hrec
  have hres : res = .ok s2 := hrec
  subst hres
  simp [FixedVulkanStuff.frame_get_image_index_to_draw, hw, ha, hr]

theorem frame_get_result_other (s : FixedVulkanStuff) (o : FrameOracle)
    (fi : Nat) (c : Int) (hw : o.waitFence = .ok ())
    (ha : o.acquire = .error (.other c)) :
    (s.frame_get_image_index_to_draw fi o).1 =
      .error (.vkResult (.other c)) := by
  simp [FixedVulkanStuff.frame_get_image_index_to_draw, hw, ha]

theorem frame_submit_result_ok (s : FixedVulkanStuff) (o : FrameOracle)
    (fi ii : Nat) (wr b : Bool) (s2 : FixedVulkanStuff)
    (hs : o.submit = .ok ()) (hp : present_need_recreate o.present = .ok b)
    (hrec : (s.recreate o.recreateO).1 = .ok s2) :
    (s.frame_queue_submit_and_present fi ii wr o).1 = .ok false := by
  rcases hr : s.recreate o.recreateO with ⟨res, tr⟩
  rw [hr] at hrec
  have hres : res = .ok s2 := hrec
  subst hres
  cases hbw : (b || wr) <;>
    simp [FixedVulkanStuff.frame_queue_submit_and_present, hs, hp, hbw, hr]

theorem frame_submit_result_error (s : FixedVulkanStuff) (o : FrameOracle)
    (fi ii : Nat) (wr : Bool) (e : VkErr) (hs : o.submit = .ok ())
    (hp : present_need_recreate o.present = .error e) :
    (s.frame_queue_submit_and_present fi ii wr o).1 =
      .error (.vkResult e) := by
  simp [FixedVulkanStuff.frame_queue_submit_and_present, hs, hp]

/-- Claim C8: `create_swapchain` requests
`min(max_image_count, min_image_count + 1)` images; when
`max_image_count = 0` (the Vulkan convention for no maximum) the request is
`0`, strictly below any positive `min_image_count`. -/
theorem c8_requested_image_count (caps : SurfaceCapabilities)
    (hsmall : caps.min_image_count + 1 < 4294967296)
    (hmax : caps.max_image_count = 0) (hmin : 0 < caps.min_image_count) :
    requested_min_image_count caps =
      Nat.min caps.max_image_count (caps.min_image_count + 1) ∧
    requested_min_image_count caps = 0 ∧
    requested_min_image_count caps < caps.min_image_count := by
  unfold requested_min_image_count
  rw [Nat.mod_eq_of_lt hsmall, hmax]
  simp [Nat.min_def]
  omega

/-- Witness for C8 at `min_image_count = 3`, `max_image_count = 0`. -/
theorem c8_requested_image_count_witness :
    requested_min_image_count ⟨3, 0⟩ = Nat.min 0 (3 + 1) ∧
    requested_min_image_count ⟨3, 0⟩ = 0 ∧
    requested_min_image_count ⟨3, 0⟩ < 3 :=
  c8_requested_image_count ⟨3, 0⟩ (by decide) rfl (by decide)

/-- Claim C10: `FrameCounter::new` starts `double_buffer_frame` at `0`;
`update` increments `frame_count` by exactly one (below the `u64` bound) and
steps `double_buffer_frame` to `(old + 1) % MAX_FRAMES_IN_FLIGHT`, so
`double_buffer_frame < MAX_FRAMES_IN_FLIGHT` holds after `new` and is
preserved by every `update`. -/
theorem c10_frame_counter_invariant (c : FrameCounter)
    (hcount : c.frame_count + 1 ≤ U64_MAX) :
    FrameCounter.new.double_buffer_frame = 0 ∧
    FrameCounter.new.double_buffer_frame < MAX_FRAMES_IN_FLIGHT ∧
    c.update.frame_count = c.frame_count + 1 ∧
    c.update.double_buffer_frame =
      (c.double_buffer_frame + 1) % MAX_FRAMES_IN_FLIGHT ∧
    c.update.double_buffer_frame < MAX_FRAMES_IN_FLIGHT := by
  refine ⟨rfl, by decide, ?_, rfl, ?_⟩
  · show (c.frame_count + 1) % (U64_MAX + 1) = c.frame_count + 1
    exact Nat.mod_eq_of_lt (Nat.lt_succ_of_le hcount)
  · show (c.double_buffer_frame + 1) % MAX_FRAMES_IN_FLIGHT < MAX_FRAMES_IN_FLIGHT
    exact Nat.mod_lt _ (by decide)

/-- Witness for C10 at the counter state reached after one update. -/
theorem c10_frame_counter_invariant_witness :
    FrameCounter.new.double_buffer_frame = 0 ∧
    FrameCounter.new.double_buffer_frame < MAX_FRAMES_IN_FLIGHT ∧
    (FrameCounter.mk 1 1).update.frame_count = 1 + 1 ∧
    (FrameCounter.mk 1 1).update.double_buffer_frame =
      (1 + 1) % MAX_FRAMES_IN_FLIGHT ∧
    (FrameCounter.mk 1 1).update.double_buffer_frame < MAX_FRAMES_IN_FLIGHT :=
  c10_frame_counter_invariant ⟨1, 1⟩ (by decide)

/-- Claim C1: every recreation the frame loop triggers — by an out-of-date
acquire in `frame_get_image_index_to_draw`, or by an out-of-date/suboptimal
present result or the window-resize flag in
`frame_queue_submit_and_present` — goes through `FixedVulkanStuff::recreate`
(the recreate trace is inlined verbatim into the frame trace), and
`device_wait_idle` precedes the destruction of every swapchain-dependent
resource (swapchain, image views, depth-stencil image, framebuffers), both
inside `recreate` and in any trace the two frame functions emit on these
paths. -/
theorem c1_recreate_waits_idle (s : FixedVulkanStuff) (o : FrameOracle)
    (fi ii : Nat) (wr b : Bool)
    (hw : o.waitFence = .ok ()) (ha : o.acquire = .error .outOfDateKhr)
    (hs : o.submit = .ok ()) (hp : present_need_recreate o.present = .ok b)
    (hbw : (b || wr) = true) :
    (s.frame_get_image_index_to_draw fi o).2.2 =
      Event.waitForFence fi U64_MAX :: Event.acquireNextImage fi ::
        (s.recreate o.recreateO).2 ∧
    (s.frame_queue_submit_and_present fi ii wr o).2.2 =
      Event.queueSubmit fi :: Event.queuePresent fi ii ::
        (s.recreate o.recreateO).2 ∧
    waitsBeforeDestroys (s.recreate o.recreateO).2 ∧
    waitsBeforeDestroys (s.frame_get_image_index_to_draw fi o).2.2 ∧
    waitsBeforeDestroys (s.frame_queue_submit_and_present fi ii wr o).2.2 := by
  have h1 := frame_get_trace_ood s o fi hw ha
  have h2 := frame_submit_trace_recreate s o fi ii wr b hs hp hbw
  refine ⟨h1, h2, recreate_waitsBeforeDestroys s o.recreateO, ?_, ?_⟩
  · rw [h1]
    exact waitsBeforeDestroys_cons _ _ rfl (waitsBeforeDestroys_cons _ _ rfl
      (recreate_waitsBeforeDestroys s o.recreateO))
  · rw [h2]
    exact waitsBeforeDestroys_cons _ _ rfl (waitsBeforeDestroys_cons _ _ rfl
      (recreate_waitsBeforeDestroys s o.recreateO))

/-- Witness for C1 at a concrete out-of-date frame with the resize flag
set. -/
theorem c1_recreate_waits_idle_witness :
    (fvs0.frame_get_image_index_to_draw 0 oracleOutOfDateAcquire).2.2 =
      Event.waitForFence 0 U64_MAX :: Event.acquireNextImage 0 ::
        (fvs0.recreate oracleOutOfDateAcquire.recreateO).2 ∧
    (fvs0.frame_queue_submit_and_present 0 1 true oracleOutOfDateAcquire).2.2 =
      Event.queueSubmit 0 :: Event.queuePresent 0 1 ::
        (fvs0.recreate oracleOutOfDateAcquire.recreateO).2 ∧
    waitsBeforeDestroys (fvs0.recreate oracleOutOfDateAcquire.recreateO).2 ∧
    waitsBeforeDestroys
      (fvs0.frame_get_image_index_to_draw 0 oracleOutOfDateAcquire).2.2 ∧
    waitsBeforeDestroys
      (fvs0.frame_queue_submit_and_present 0 1 true oracleOutOfDateAcquire).2.2 :=
  c1_recreate_waits_idle fvs0 oracleOutOfDateAcquire 0 1 true true rfl rfl rfl
    rfl rfl

/-- Claim C2: when the acquire inside `frame_get_image_index_to_draw`
reports `ERROR_OUT_OF_DATE_KHR` and the recreation succeeds, the call
recreates the swapchain set and returns `Ok((u32::MAX, true))`, its trace
contains no submit and no present, and the texture-array `draw_frame` then
returns with `current_frame` and the resize flag untouched — the frame is
abandoned, not advanced. -/
theorem c2_out_of_date_abandons_frame (app : TextureArrayExample)
    (o : FrameOracle) (s2 : FixedVulkanStuff)
    (hw : o.waitFence = .ok ()) (ha : o.acquire = .error .outOfDateKhr)
    (hrec : (app.fixed_vulkan_stuff.recreate o.recreateO).1 = .ok s2) :
    (app.fixed_vulkan_stuff.frame_get_image_index_to_draw app.current_frame
      o).1 = .ok (U32_MAX, true) ∧
    (∀ j, Event.queueSubmit j ∉
      (app.fixed_vulkan_stuff.frame_get_image_index_to_draw app.current_frame
        o).2.2) ∧
    (∀ j k, Event.queuePresent j k ∉
      (app.fixed_vulkan_stuff.frame_get_image_index_to_draw app.current_frame
        o).2.2) ∧
    app.draw_frame o = some (⟨app.current_frame, app.window_resized, s2⟩,
      (app.fixed_vulkan_stuff.frame_get_image_index_to_draw app.current_frame
        o).2.2) := by
  rcases hr : app.fixed_vulkan_stuff.recreate o.recreateO with ⟨res, tr⟩
  rw [hr] at hrec
  have hres : res = .ok s2 := hrec
  subst hres
  have hfull : app.fixed_vulkan_stuff.frame_get_image_index_to_draw
      app.current_frame o = (.ok (U32_MAX, true), s2,
        Event.waitForFence app.current_frame U64_MAX ::
          Event.acquireNextImage app.current_frame :: tr) := by
    simp [FixedVulkanStuff.frame_get_image_index_to_draw, hw, ha, hr]
  refine ⟨by rw [hfull], ?_, ?_, ?_⟩
  · intro j hmem
    rw [hfull] at hmem
    simp only [List.mem_cons] at hmem
    rcases hmem with h | h | h
    · exact Event.noConfusion h
    · exact Event.noConfusion h
    · have hno := (recreate_trace_no_frame_events app.fixed_vulkan_stuff
        o.recreateO).2.1 j
      rw [hr] at hno
      exact hno h
  · intro j k hmem
    rw [hfull] at hmem
    simp only [List.mem_cons] at hmem
    rcases hmem with h | h | h
    · exact Event.noConfusion h
    · exact Event.noConfusion h
    · have hno := (recreate_trace_no_frame_events app.fixed_vulkan_stuff
        o.recreateO).2.2.1 j k
      rw [hr] at hno
      exact hno h
  · rw [hfull]
    simp [TextureArrayExample.draw_frame, hfull]

/-- Witness for C2 at the concrete out-of-date frame. -/
theorem c2_out_of_date_abandons_frame_witness :
    (texApp0.fixed_vulkan_stuff.frame_get_image_index_to_draw
      texApp0.current_frame oracleOutOfDateAcquire).1 = .ok (U32_MAX, true) ∧
    (∀ j, Event.queueSubmit j ∉
      (texApp0.fixed_vulkan_stuff.frame_get_image_index_to_draw
        texApp0.current_frame oracleOutOfDateAcquire).2.2) ∧
    (∀ j k, Event.queuePresent j k ∉
      (texApp0.fixed_vulkan_stuff.frame_get_image_index_to_draw
        texApp0.current_frame oracleOutOfDateAcquire).2.2) ∧
    texApp0.draw_frame oracleOutOfDateAcquire =
      some (⟨texApp0.current_frame, texApp0.window_resized, fvs0⟩,
        (texApp0.fixed_vulkan_stuff.frame_get_image_index_to_draw
          texApp0.current_frame oracleOutOfDateAcquire).2.2) :=
  c2_out_of_date_abandons_frame texApp0 oracleOutOfDateAcquire fvs0 rfl rfl rfl

/-- Claim C3: when the present result requests recreation (out-of-date or
suboptimal) and the window-resize flag is set at the same time,
`frame_queue_submit_and_present` enters `recreate` exactly once, not
twice. -/
theorem c3_recreate_exactly_once (s : FixedVulkanStuff) (o : FrameOracle)
    (fi ii : Nat) (hs : o.submit = .ok ())
    (hp : o.present = .error .outOfDateKhr ∨ o.present = .ok true) :
    countEvent Event.recreateCall
      (s.frame_queue_submit_and_present fi ii true o).2.2 = 1 := by
  have hpb : present_need_recreate o.present = .ok true := by
    rcases hp with h | h <;> rw [h] <;> rfl
  rw [frame_submit_trace_recreate s o fi ii true true hs hpb rfl]
  simp only [countEvent]
  rw [recreate_call_count_one]
  simp

/-- Witness for C3: present reports out-of-date while the resize flag is
true. -/
theorem c3_recreate_exactly_once_witness :
    countEvent Event.recreateCall
      (fvs0.frame_queue_submit_and_present 0 1 true
        oraclePresentOutOfDate).2.2 = 1 :=
  c3_recreate_exactly_once fvs0 oraclePresentOutOfDate 0 1 rfl (Or.inl rfl)

/-- Claim C4: after `SwapChainBatch::new` and after every successful
`SwapChainBatch::recreate` the image-view count equals the swapchain image
count; and after `FixedVulkanStuff::new` and every successful
`FixedVulkanStuff::recreate` the framebuffer count equals both. -/
theorem c4_counts_agree (o : RecreateOracle) (b bn b2 : SwapChainBatch)
    (s sn s2 : FixedVulkanStuff) (tB tS : List Event)
    (h1 : SwapChainBatch.new o = .ok bn)
    (h2 : b.recreate o = (.ok b2, tB))
    (h3 : FixedVulkanStuff.new o = .ok sn)
    (h4 : s.recreate o = (.ok s2, tS)) :
    bn.image_views.length = bn.images.length ∧
    b2.image_views.length = b2.images.length ∧
    sn.swapchain_batch.image_views.length =
      sn.swapchain_batch.images.length ∧
    sn.swapchain_framebuffers.length =
      sn.swapchain_batch.image_views.length ∧
    s2.swapchain_batch.image_views.length =
      s2.swapchain_batch.images.length ∧
    s2.swapchain_framebuffers.length =
      s2.swapchain_batch.image_views.length := by
  obtain ⟨i3, v3, f3, hc3, hf3, rfl⟩ := new_ok_decomp o sn h3
  obtain ⟨i4, v4, f4, hc4, hf4, rfl⟩ := recreate_ok_decomp s o s2 tS h4
  have hv3 := create_views_length o i3 v3 hc3
  have hv4 := create_views_length o i4 v4 hc4
  have hf3l := traverseExcept_length o.createFramebuffer v3 f3 hf3
  have hf4l := traverseExcept_length o.createFramebuffer v4 f4 hf4
  cases hc : create_swapchain_image_and_views o with
  | error e => simp [SwapChainBatch.new, hc] at h1
  | ok p =>
    rcases p with ⟨imgs, views⟩
    simp only [SwapChainBatch.new, hc, Except.ok.injEq] at h1
    simp only [SwapChainBatch.recreate, hc, Prod.mk.injEq,
      Except.ok.injEq] at h2
    have hv := create_views_length o imgs views hc
    refine ⟨?_, ?_, hv3, hf3l, hv4, hf4l⟩
    · rw [← h1]
      exact hv
    · rw [← h2.1]
      exact hv

/-- Witness for C4 with the all-successful three-image driver. -/
theorem c4_counts_agree_witness :
    batch0.image_views.length = batch0.images.length ∧
    batch0.image_views.length = batch0.images.length ∧
    fvs0.swapchain_batch.image_views.length =
      fvs0.swapchain_batch.images.length ∧
    fvs0.swapchain_framebuffers.length =
      fvs0.swapchain_batch.image_views.length ∧
    fvs0.swapchain_batch.image_views.length =
      fvs0.swapchain_batch.images.length ∧
    fvs0.swapchain_framebuffers.length =
      fvs0.swapchain_batch.image_views.length :=
  c4_counts_agree okRecreateOracle batch0 batch0 batch0 fvs0 fvs0 fvs0
    [Event.destroyImageViews, Event.destroySwapchain,
      Event.createSwapchainImagesAndViews]
    [Event.recreateCall, Event.deviceWaitIdle, Event.refitSurface,
      Event.destroyImageViews, Event.destroySwapchain,
      Event.createSwapchainImagesAndViews, Event.createDepthStencil,
      Event.destroyDepthStencil, Event.destroyFramebuffers,
      Event.createFramebuffers]
    rfl rfl rfl rfl

/-- Claim C5: in `frame_get_image_index_to_draw` the slot fence is waited on
first, with the unbounded `u64::MAX` timeout, before the acquire; the fence
is reset only after a successful acquire and before any submission (the
function emits no submit, and the submit-and-present call never resets); and
on the out-of-date path the fence is never reset — it stays signaled. -/
theorem c5_fence_discipline (s : FixedVulkanStuff) (o : FrameOracle)
    (fi : Nat) :
    (s.frame_get_image_index_to_draw fi o).2.2.head? =
      some (Event.waitForFence fi U64_MAX) ∧
    (∀ r, o.waitFence = .ok () → o.acquire = .ok r →
      (s.frame_get_image_index_to_draw fi o).2.2 =
        [Event.waitForFence fi U64_MAX, Event.acquireNextImage fi,
         Event.resetFence fi]) ∧
    (Event.resetFence fi ∈ (s.frame_get_image_index_to_draw fi o).2.2 →
      ∃ r, o.acquire = .ok r) ∧
    (o.acquire = .error .outOfDateKhr →
      Event.resetFence fi ∉ (s.frame_get_image_index_to_draw fi o).2.2) ∧
    (∀ j, Event.queueSubmit j ∉
      (s.frame_get_image_index_to_draw fi o).2.2) ∧
    (∀ (wr : Bool) (ii j : Nat), Event.resetFence j ∉
      (s.frame_queue_submit_and_present fi ii wr o).2.2) := by
  have hlast : ∀ (wr : Bool) (ii j : Nat), Event.resetFence j ∉
      (s.frame_queue_submit_and_present fi ii wr o).2.2 := by
    intro wr ii j hmem
    rcases frame_submit_trace_shape s o fi ii wr with h | h | h <;>
      rw [h] at hmem
    · simp at hmem
    · simp at hmem
    · simp only [List.mem_cons] at hmem
      rcases hmem with h2 | h2 | h2
      · exact Event.noConfusion h2
      · exact Event.noConfusion h2
      · exact (recreate_trace_no_frame_events s o.recreateO).1 j h2
  have hok : ∀ r, o.waitFence = .ok () → o.acquire = .ok r →
      (s.frame_get_image_index_to_draw fi o).2.2 =
        [Event.waitForFence fi U64_MAX, Event.acquireNextImage fi,
         Event.resetFence fi] := by
    intro r hw ha
    cases hrf : o.resetFence <;>
      simp [FixedVulkanStuff.frame_get_image_index_to_draw, hw, ha, hrf]
  rcases frame_get_trace_shape s o fi with h | ⟨h, c, hc⟩ | ⟨h, hood⟩ |
    ⟨h, r, hr⟩
  · refine ⟨by rw [h]; rfl, hok, ?_, ?_, ?_, hlast⟩
    · intro hmem
      rw [h] at hmem
      simp at hmem
    · intro _ hmem
      rw [h] at hmem
      simp at hmem
    · intro j hmem
      rw [h] at hmem
      simp at hmem
  · refine ⟨by rw [h]; rfl, hok, ?_, ?_, ?_, hlast⟩
    · intro hmem
      rw [h] at hmem
      simp at hmem
    · intro _ hmem
      rw [h] at hmem
      simp at hmem
    · intro j hmem
      rw [h] at hmem
      simp at hmem
  · refine ⟨by rw [h]; rfl, hok, ?_, ?_, ?_, hlast⟩
    · intro hmem
      rw [h] at hmem
      simp only [List.mem_cons] at hmem
      rcases hmem with h2 | h2 | h2
      · exact Event.noConfusion h2
      · exact Event.noConfusion h2
      · exact absurd h2 ((recreate_trace_no_frame_events s o.recreateO).1 fi)
    · intro _ hmem
      rw [h] at hmem
      simp only [List.mem_cons] at hmem
      rcases hmem with h2 | h2 | h2
      · exact Event.noConfusion h2
      · exact Event.noConfusion h2
      · exact (recreate_trace_no_frame_events s o.recreateO).1 fi h2
    · intro j hmem
      rw [h] at hmem
      simp only [List.mem_cons] at hmem
      rcases hmem with h2 | h2 | h2
      · exact Event.noConfusion h2
      · exact Event.noConfusion h2
      · exact (recreate_trace_no_frame_events s o.recreateO).2.1 j h2
  · refine ⟨by rw [h]; rfl, hok, fun _ => ⟨r, hr⟩, ?_, ?_, hlast⟩
    · intro hood2
      rw [hr] at hood2
      exact absurd hood2 (by simp)
    · intro j hmem
      rw [h] at hmem
      simp at hmem

/-- Witness for C5 at a clean frame on slot `0`. -/
theorem c5_fence_discipline_witness :
    (fvs0.frame_get_image_index_to_draw 0 oracleOk).2.2.head? =
      some (Event.waitForFence 0 U64_MAX) ∧
    (∀ r, oracleOk.waitFence = .ok () → oracleOk.acquire = .ok r →
      (fvs0.frame_get_image_index_to_draw 0 oracleOk).2.2 =
        [Event.waitForFence 0 U64_MAX, Event.acquireNextImage 0,
         Event.resetFence 0]) ∧
    (Event.resetFence 0 ∈ (fvs0.frame_get_image_index_to_draw 0 oracleOk).2.2 →
      ∃ r, oracleOk.acquire = .ok r) ∧
    (oracleOk.acquire = .error .outOfDateKhr →
      Event.resetFence 0 ∉
        (fvs0.frame_get_image_index_to_draw 0 oracleOk).2.2) ∧
    (∀ j, Event.queueSubmit j ∉
      (fvs0.frame_get_image_index_to_draw 0 oracleOk).2.2) ∧
    (∀ (wr : Bool) (ii j : Nat), Event.resetFence j ∉
      (fvs0.frame_queue_submit_and_present 0 ii wr oracleOk).2.2) :=
  c5_fence_discipline fvs0 oracleOk 0

/-- Counterexample to claim C6 as stated: a suboptimal acquire —
`acquire_next_image` returning `Ok((7, true))`, i.e. `SUBOPTIMAL_KHR` — is
not handled by recreation: `frame_get_image_index_to_draw` performs no
recreation at all, discards the suboptimal flag and returns `Ok((7,
false))`. -/
theorem c6_counterexample :
    (fvs0.frame_get_image_index_to_draw 0 oracleSuboptimalAcquire).1 =
      .ok (7, false) ∧
    Event.recreateCall ∉
      (fvs0.frame_get_image_index_to_draw 0 oracleSuboptimalAcquire).2.2 := by
  refine ⟨rfl, ?_⟩
  decide

/-- Claim C6 (amended): with the fence operations and any triggered
recreation succeeding, the two frame functions return an error exactly when
acquire (resp. present) fails with a code other than
`ERROR_OUT_OF_DATE_KHR`; an out-of-date acquire and an out-of-date or
suboptimal present result are handled by recreation and not surfaced as
errors; a suboptimal acquire is treated as plain success — no recreation,
flag discarded; and no retry occurs: each call issues acquire (resp.
present) at most once. -/
theorem c6_error_exactness (s : FixedVulkanStuff) (o : FrameOracle)
    (fi ii : Nat) (wr : Bool) (s2 : FixedVulkanStuff)
    (hw : o.waitFence = .ok ()) (hrf : o.resetFence = .ok ())
    (hrec : (s.recreate o.recreateO).1 = .ok s2) :
    ((∃ e, (s.frame_get_image_index_to_draw fi o).1 = .error e) ↔
      (∃ c, o.acquire = .error (.other c))) ∧
    (o.acquire = .error .outOfDateKhr →
      Event.recreateCall ∈ (s.frame_get_image_index_to_draw fi o).2.2) ∧
    (∀ r, o.acquire = .ok r →
      (s.frame_get_image_index_to_draw fi o).1 = .ok (r.1, false) ∧
      Event.recreateCall ∉ (s.frame_get_image_index_to_draw fi o).2.2) ∧
    (o.submit = .ok () →
      (((∃ e, (s.frame_queue_submit_and_present fi ii wr o).1 = .error e) ↔
        (∃ c, o.present = .error (.other c))) ∧
      ((o.present = .error .outOfDateKhr ∨ o.present = .ok true) →
        Event.recreateCall ∈
          (s.frame_queue_submit_and_present fi ii wr o).2.2))) ∧
    countEvent (Event.acquireNextImage fi)
      (s.frame_get_image_index_to_draw fi o).2.2 ≤ 1 ∧
    countEvent (Event.queuePresent fi ii)
      (s.frame_queue_submit_and_present fi ii wr o).2.2 ≤ 1 := by
  refine ⟨?_, ?_, ?_, ?_, ?_, ?_⟩
  · cases ha : o.acquire with
    | ok r =>
      have hres := frame_get_result_ok s o fi r hw hrf ha
      constructor
      · rintro ⟨e, he⟩
        rw [hres] at he
        exact absurd he (by simp)
      · rintro ⟨c, hc⟩
        exact absurd hc (by simp)
    | error err =>
      cases err with
      | outOfDateKhr =>
        have hres := frame_get_result_ood s o fi s2 hw ha hrec
        constructor
        · rintro ⟨e, he⟩
          rw [hres] at he
          exact absurd he (by simp)
        · rintro ⟨c, hc⟩
          exact absurd hc (by simp)
      | other c =>
        have hres := frame_get_result_other s o fi c hw ha
        exact ⟨fun _ => ⟨c, rfl⟩, fun _ => ⟨RenderError.vkResult (.other c), hres⟩⟩
  · intro ha
    rw [frame_get_trace_ood s o fi hw ha]
    exact List.mem_cons_of_mem _ (List.mem_cons_of_mem _
      (recreate_trace_mem_call s o.recreateO))
  · intro r ha
    refine ⟨frame_get_result_ok s o fi r hw hrf ha, ?_⟩
    have htr : (s.frame_get_image_index_to_draw fi o).2.2 =
        [Event.waitForFence fi U64_MAX, Event.acquireNextImage fi,
         Event.resetFence fi] := by
      simp [FixedVulkanStuff.frame_get_image_index_to_draw, hw, ha, hrf]
    rw [htr]
    simp
  · intro hs
    constructor
    · cases hp : o.present with
      | ok pb =>
        have hpnr : present_need_recreate o.present = .ok pb := by
          rw [hp]
          cases pb <;> rfl
        have hres := frame_submit_result_ok s o fi ii wr pb s2 hs hpnr hrec
        constructor
        · rintro ⟨e, he⟩
          rw [hres] at he
          exact absurd he (by simp)
        · rintro ⟨c, hc⟩
          exact absurd hc (by simp)
      | error err =>
        cases err with
        | outOfDateKhr =>
          have hpnr : present_need_recreate o.present = .ok true := by
            rw [hp]
            rfl
          have hres := frame_submit_result_ok s o fi ii wr true s2 hs hpnr
            hrec
          constructor
          · rintro ⟨e, he⟩
            rw [hres] at he
            exact absurd he (by simp)
          · rintro ⟨c, hc⟩
            exact absurd hc (by simp)
        | other c =>
          have hpnr : present_need_recreate o.present = .error (.other c) := by
            rw [hp]
            rfl
          have hres := frame_submit_result_error s o fi ii wr (.other c) hs
            hpnr
          exact ⟨fun _ => ⟨c, rfl⟩,
            fun _ => ⟨RenderError.vkResult (.other c), hres⟩⟩
    · intro hor
      have hpb : present_need_recreate o.present = .ok true := by
        rcases hor with h2 | h2 <;> rw [h2] <;> rfl
      rw [frame_submit_trace_recreate s o fi ii wr true hs hpb rfl]
      exact List.mem_cons_of_mem _ (List.mem_cons_of_mem _
        (recreate_trace_mem_call s o.recreateO))
  · rcases frame_get_trace_shape s o fi with h | ⟨h, _, _⟩ | ⟨h, _⟩ |
      ⟨h, _, _⟩ <;> rw [h]
    · simp [countEvent]
    · simp [countEvent]
    · simp only [countEvent]
      rw [countEvent_eq_zero _ _
        ((recreate_trace_no_frame_events s o.recreateO).2.2.2.2 fi)]
      simp
    · simp [countEvent]
  · rcases frame_submit_trace_shape s o fi ii wr with h | h | h <;> rw [h]
    · simp [countEvent]
    · simp [countEvent]
    · simp only [countEvent]
      rw [countEvent_eq_zero _ _
        ((recreate_trace_no_frame_events s o.recreateO).2.2.1 fi ii)]
      simp

/-- Witness for the amended C6 at the all-successful driver. -/
theorem c6_error_exactness_witness :
    ((∃ e, (fvs0.frame_get_image_index_to_draw 0 oracleOk).1 = .error e) ↔
      (∃ c, oracleOk.acquire = .error (.other c))) ∧
    (oracleOk.acquire = .error .outOfDateKhr →
      Event.recreateCall ∈ (fvs0.frame_get_image_index_to_draw 0 oracleOk).2.2) ∧
    (∀ r, oracleOk.acquire = .ok r →
      (fvs0.frame_get_image_index_to_draw 0 oracleOk).1 = .ok (r.1, false) ∧
      Event.recreateCall ∉
        (fvs0.frame_get_image_index_to_draw 0 oracleOk).2.2) ∧
    (oracleOk.submit = .ok () →
      (((∃ e, (fvs0.frame_queue_submit_and_present 0 1 false oracleOk).1 =
          .error e) ↔
        (∃ c, oracleOk.present = .error (.other c))) ∧
      ((oracleOk.present = .error .outOfDateKhr ∨
          oracleOk.present = .ok true) →
        Event.recreateCall ∈
          (fvs0.frame_queue_submit_and_present 0 1 false oracleOk).2.2))) ∧
    countEvent (Event.acquireNextImage 0)
      (fvs0.frame_get_image_index_to_draw 0 oracleOk).2.2 ≤ 1 ∧
    countEvent (Event.queuePresent 0 1)
      (fvs0.frame_queue_submit_and_present 0 1 false oracleOk).2.2 ≤ 1 :=
  c6_error_exactness fvs0 oracleOk 0 1 false fvs0 rfl rfl rfl

/-- Counterexample to claim C7 as stated: the claim puts the `Buffer`
map/unmap misuse checks under debug assertions, which fire only in builds
with debug assertions enabled; but `Buffer::map_memory` guards with plain
`assert!` — in a build without debug assertions (`dbg = false`), mapping an
already-mapped buffer (state `⟨true, 8⟩`) still trips the guard. -/
theorem c7_counterexample :
    ¬ (∀ (dbg : Bool) (b : Buffer) (offset size_in_bytes : Nat),
        Buffer.map_memory_guard dbg b offset size_in_bytes = true →
        dbg = true) := by
  intro hclaim
  have hbad := hclaim false ⟨true, 8⟩ 0 0 rfl
  exact Bool.false_ne_true hbad

/-- Claim C7 (amended): the frame-index range checks of the `frame_*`
operations are debug assertions, firing exactly in debug builds on an index
at or above `MAX_FRAMES_IN_FLIGHT`; the `Buffer` map/unmap misuse checks
are unconditional `assert!`s, independent of the build and firing exactly
on misuse; and neither kind is part of the recoverable error taxonomy —
`map_memory` only ever returns the driver's error, never a misuse
`RenderError` variant. -/
theorem c7_assertion_taxonomy (dbg : Bool) (fi : Nat) (b : Buffer)
    (offset size_in_bytes : Nat) (d : Except VkErr Unit) :
    (frame_op_index_guard dbg fi = true ↔
      (dbg = true ∧ MAX_FRAMES_IN_FLIGHT ≤ fi)) ∧
    Buffer.map_memory_guard dbg b offset size_in_bytes =
      Buffer.map_memory_guard true b offset size_in_bytes ∧
    Buffer.unmap_memory_guard dbg b = Buffer.unmap_memory_guard true b ∧
    (Buffer.map_memory_guard dbg b offset size_in_bytes = true ↔
      (b.mapped = true ∨ b.size_in_bytes < offset + size_in_bytes)) ∧
    (Buffer.unmap_memory_guard dbg b = true ↔ b.mapped = false) ∧
    (∀ e, Buffer.map_memory b d = .error e → d = .error e) := by
  refine ⟨?_, rfl, rfl, ?_, ?_, ?_⟩
  · cases dbg with
    | false =>
      simp [frame_op_index_guard, debug_assert_fires]
    | true =>
      simp [frame_op_index_guard, debug_assert_fires, MAX_FRAMES_IN_FLIGHT]
  · simp [Buffer.map_memory_guard]
  · simp [Buffer.unmap_memory_guard]
  · intro e he
    cases hd : d with
    | error e2 =>
      simp only [Buffer.map_memory, hd, Except.error.injEq] at he
      rw [he]
    | ok u =>
      simp [Buffer.map_memory, hd] at he

/-- Witness for the amended C7: debug build, out-of-range index `5`, an
unmapped 8-byte buffer, a 4-byte mapping, a successful driver map. -/
theorem c7_assertion_taxonomy_witness :
    (frame_op_index_guard true 5 = true ↔
      (true = true ∧ MAX_FRAMES_IN_FLIGHT ≤ 5)) ∧
    Buffer.map_memory_guard true ⟨false, 8⟩ 0 4 =
      Buffer.map_memory_guard true ⟨false, 8⟩ 0 4 ∧
    Buffer.unmap_memory_guard true ⟨false, 8⟩ =
      Buffer.unmap_memory_guard true ⟨false, 8⟩ ∧
    (Buffer.map_memory_guard true ⟨false, 8⟩ 0 4 = true ↔
      ((Buffer.mk false 8).mapped = true ∨
        (Buffer.mk false 8).size_in_bytes < 0 + 4)) ∧
    (Buffer.unmap_memory_guard true ⟨false, 8⟩ = true ↔
      (Buffer.mk false 8).mapped = false) ∧
    (∀ e, Buffer.map_memory ⟨false, 8⟩ (.ok ()) = .error e →
      (Except.ok () : Except VkErr Unit) = .error e) :=
  c7_assertion_taxonomy true 5 ⟨false, 8⟩ 0 4 (.ok ())

/-- Claim C9: whenever `frame_queue_submit_and_present` returns without an
error the boolean is `false` — also on calls where a recreation occurred —
so the texture-array `draw_frame`, which stores the returned value into its
`window_resized` flag, clears that flag after every completed
(non-abandoned) frame. -/
theorem c9_returns_false_clears_flag (s : FixedVulkanStuff) (o : FrameOracle)
    (fi ii : Nat) (wr : Bool) (app : TextureArrayExample) :
    (∀ b2, (s.frame_queue_submit_and_present fi ii wr o).1 = .ok b2 →
      b2 = false) ∧
    (∀ res idx,
      (app.fixed_vulkan_stuff.frame_get_image_index_to_draw app.current_frame
        o).1 = .ok (idx, false) →
      app.draw_frame o = some res → res.1.window_resized = false) := by
  refine ⟨fun b2 h => submit_present_ok_false s o fi ii wr b2 h, ?_⟩
  intro res idx hget hdraw
  rcases hg : app.fixed_vulkan_stuff.frame_get_image_index_to_draw
      app.current_frame o with ⟨r1, fvs1, t1⟩
  rw [hg] at hget
  have hr1 : r1 = .ok (idx, false) := hget
  subst hr1
  have hdraw2 : app.draw_frame o =
      (match fvs1.frame_queue_submit_and_present app.current_frame idx
          app.window_resized o with
        | (.error _, _, _) => none
        | (.ok resized, fvs2, t2) =>
          some (⟨(app.current_frame + 1) % MAX_FRAMES_IN_FLIGHT, resized,
            fvs2⟩, t1 ++ t2)) := by
    simp [TextureArrayExample.draw_frame, hg]
  rcases hs2 : fvs1.frame_queue_submit_and_present app.current_frame idx
      app.window_resized o with ⟨r2, fvs2, t2⟩
  rw [hs2] at hdraw2
  cases r2 with
  | error e =>
    rw [hdraw2] at hdraw
    exact Option.noConfusion hdraw
  | ok resized =>
    rw [hdraw2] at hdraw
    simp only [Option.some.injEq] at hdraw
    rw [← hdraw]
    have hres2 : (fvs1.frame_queue_submit_and_present app.current_frame idx
        app.window_resized o).1 = .ok resized := by
      rw [hs2]
    exact submit_present_ok_false fvs1 o app.current_frame idx
      app.window_resized resized hres2

/-- Witness for C9 at a clean frame of the texture-array app. -/
theorem c9_returns_false_clears_flag_witness :
    (∀ b2, (fvs0.frame_queue_submit_and_present 0 1 false oracleOk).1 =
      .ok b2 → b2 = false) ∧
    (∀ res idx,
      (texApp0.fixed_vulkan_stuff.frame_get_image_index_to_draw
        texApp0.current_frame oracleOk).1 = .ok (idx, false) →
      texApp0.draw_frame oracleOk = some res →
      res.1.window_resized = false) :=
  c9_returns_false_clears_flag fvs0 oracleOk 0 1 false texApp0

end VkExamples
